import Mathlib

/-!
Verification of the dependency-impact graph engine of this repository.

The engine is a set of command-line tools over a bipartite dependency
graph held in an external graph store: `BusinessFunction` nodes (units)
linked to `ElementalField` nodes by `HAS_OUTPUT_FIELD` (produces) and
`HAS_INPUT_FIELD` (consumes) edges.  The files embedded below are the
impact-analysis CLI (`analyzeDirectImpact`, `analyzeMultiHopImpact`),
`src/tools/critical-fields.ts`, `src/tools/impact-summary.ts` and
`src/tools/dependency-path.ts`.  Cypher queries are translated into pure
list operations over an explicit `Graph` value; the `try`/`catch`
structure of the summary tool is made explicit with `Except` inputs.
-/

/-- The dependency graph: `BusinessFunction` node names, `ElementalField`
node names, `HAS_OUTPUT_FIELD` edges (`producesE`, unit → field) and
`HAS_INPUT_FIELD` edges (`consumesE`, unit → field). -/
structure Graph where
  units : List String
  fields : List String
  producesE : List (String × String)
  consumesE : List (String × String)
deriving DecidableEq, Repr

namespace Graph

/-- Producers of a field: units `bf` with `(bf)-[:HAS_OUTPUT_FIELD]->(field)`. -/
def producersOf (g : Graph) (f : String) : List String :=
  (g.producesE.filter (fun e => decide (e.2 = f))).map (fun e => e.1)

/-- Consumers of a field: units `bf` with `(bf)-[:HAS_INPUT_FIELD]->(field)`. -/
def consumersOf (g : Graph) (f : String) : List String :=
  (g.consumesE.filter (fun e => decide (e.2 = f))).map (fun e => e.1)

/-- Fields produced by a unit: `(bf)-[:HAS_OUTPUT_FIELD]->(field)`. -/
def producedBy (g : Graph) (bf : String) : List String :=
  (g.producesE.filter (fun e => decide (e.1 = bf))).map (fun e => e.2)

/-- The `outputName` property of a `BusinessFunction` node.  By the
ingestion invariant a unit has exactly one produced field and the
property holds that field's name, so we model it as the first produced
field. -/
def outputName (g : Graph) (bf : String) : String :=
  (g.producedBy bf).headD ""

/-- The eligible fields of the distribution and ranking queries:
`WHERE size(producers) > 0 AND size(consumers) > 0`. -/
def eligibleFields (g : Graph) : List String :=
  g.fields.filter (fun f =>
    decide (0 < (g.producersOf f).length) && decide (0 < (g.consumersOf f).length))

/-- `WITH size(consumers) as consumerCount` over the eligible fields. -/
def eligibleConsumerCounts (g : Graph) : List Nat :=
  g.eligibleFields.map (fun f => (g.consumersOf f).length)

end Graph

/-- Insertion of an element into a list ordered by the boolean relation
`le`; building block for the model of the Cypher `ORDER BY` clauses. -/
def insertLe {α : Type} (le : α → α → Bool) (a : α) : List α → List α
  | [] => [a]
  | b :: t => if le a b then a :: b :: t else b :: insertLe le a t

/-- Insertion sort by the boolean relation `le`; models `ORDER BY`. -/
def sortedBy {α : Type} (le : α → α → Bool) (l : List α) : List α :=
  l.foldr (insertLe le) []

namespace ImpactAnalysis

/-- A row of the impact queries of the impact-analysis CLI. -/
structure ImpactResult where
  sourceBusinessFunction : String
  sourceOutputField : String
  affectedBusinessFunction : String
  affectedOutputField : String
  impactDepth : Nat
  pathFields : List String
deriving DecidableEq, Repr

/-- `analyzeDirectImpact`: direct consumers of the identified output
field (field mode) or of the identified unit's output field (unit mode),
each row tagged `impactDepth = 1`. -/
def analyzeDirectImpact (g : Graph) (identifier : String) (isOutputField : Bool) :
    List ImpactResult :=
  if isOutputField then
    (g.producersOf identifier).flatMap (fun src =>
      (g.consumersOf identifier).map (fun aff =>
        ⟨src, g.outputName src, aff, g.outputName aff, 1, [identifier]⟩))
  else
    (g.producedBy identifier).flatMap (fun f =>
      (g.consumersOf f).map (fun aff =>
        ⟨identifier, g.outputName identifier, aff, g.outputName aff, 1, [f]⟩))

/-- All instantiations of the `depth`-fold alternating query pattern
`(field_i)<-[:HAS_INPUT_FIELD]-(bf_{i+1})-[:HAS_OUTPUT_FIELD]->(field_{i+1})`
grown from field `f`: each result is the final field together with the
accumulated `[field1, …, field_depth]`. -/
def chainsFrom (g : Graph) (f : String) : Nat → List (String × List String)
  | 0 => [(f, [])]
  | d + 1 =>
    (chainsFrom g f d).flatMap (fun c =>
      (g.consumersOf c.1).flatMap (fun bf =>
        (g.producedBy bf).map (fun f2 => (f2, c.2 ++ [f2]))))

/-- One depth level of `analyzeMultiHopImpact` (before `LIMIT 100`): the
start pattern binds `(source_bf, start_field)`, the chain adds `depth`
intermediate units, and `final_bf` consumes the last chained field; the
row is tagged `impactDepth = depth + 1` with
`pathFields = [start_field, field1, …, field_depth]`. -/
def multiHopLevel (g : Graph) (identifier : String) (isOutputField : Bool) (depth : Nat) :
    List ImpactResult :=
  let starts : List (String × String) :=
    if isOutputField then (g.producersOf identifier).map (fun src => (src, identifier))
    else (g.producedBy identifier).map (fun f => (identifier, f))
  starts.flatMap (fun s =>
    (chainsFrom g s.2 depth).flatMap (fun c =>
      (g.consumersOf c.1).map (fun finalBf =>
        ⟨s.1, g.outputName s.1, finalBf, g.outputName finalBf, depth + 1, s.2 :: c.2⟩)))

/-- `analyzeMultiHopImpact`: one query per loop iteration
`depth = 1 .. maxDepth`, each capped by `LIMIT 100`, results concatenated
in depth order. -/
def analyzeMultiHopImpact (g : Graph) (identifier : String) (isOutputField : Bool)
    (maxDepth : Nat) : List ImpactResult :=
  (List.range maxDepth).flatMap (fun i =>
    (multiHopLevel g identifier isOutputField (i + 1)).take 100)

/-- The dispatch in `main`: `depth === 1` runs the direct query,
otherwise the multi-hop analysis with `maxDepth = depth`. -/
def analyzeImpact (g : Graph) (identifier : String) (isOutputField : Bool) (depth : Nat) :
    List ImpactResult :=
  if depth = 1 then analyzeDirectImpact g identifier isOutputField
  else analyzeMultiHopImpact g identifier isOutputField depth

end ImpactAnalysis

namespace CriticalFields

/-- The JavaScript number values reachable in `generateSummary`: a finite
value, `NaN`, `Infinity` or `-Infinity`. -/
inductive JSNum where
  | num (q : ℚ)
  | nan
  | posInf
  | negInf
deriving DecidableEq, Repr

/-- JavaScript division of two finite numbers: `0 / 0` is `NaN` and
`x / 0` is a signed infinity for `x ≠ 0`. -/
def jsDivNum (x y : ℚ) : JSNum :=
  if y = 0 then
    (if x = 0 then JSNum.nan else if 0 < x then JSNum.posInf else JSNum.negInf)
  else JSNum.num (x / y)

/-- `Math.max(...l)` over finite arguments: `-Infinity` on no arguments. -/
def mathMax (l : List ℚ) : JSNum :=
  match l with
  | [] => JSNum.negInf
  | x :: t => JSNum.num (t.foldl max x)

/-- A row of `analyzeCriticalFields`. -/
structure FieldImpactData where
  fieldName : String
  producerCount : Nat
  consumerCount : Nat
  impactRatio : ℚ
  totalConnections : Nat
deriving DecidableEq, Repr

/-- The validated `--sort-by` values. -/
inductive SortKey where
  | consumers
  | producers
  | ratio
deriving DecidableEq, Repr

/-- `getSortClause`: the key each `--sort-by` value orders by. -/
def sortKeyValue (s : SortKey) (f : FieldImpactData) : ℚ :=
  match s with
  | .consumers => f.consumerCount
  | .producers => f.producerCount
  | .ratio => f.impactRatio

/-- `analyzeCriticalFields`: fields with at least one producer and at
least `minConsumers` consumers, with producer/consumer counts, impact
ratio `consumers / producers` and total connections, ordered descending
by the chosen key and capped by `LIMIT limit`.  (The `||` fallbacks of
the row mapping recompute the same values for these rows.) -/
def analyzeCriticalFields (g : Graph) (minConsumers limit : Nat) (sortBy : SortKey) :
    List FieldImpactData :=
  let rows := (g.fields.filter (fun f =>
      decide (0 < (g.producersOf f).length) &&
      decide (minConsumers ≤ (g.consumersOf f).length))).map
    (fun f =>
      { fieldName := f
        producerCount := (g.producersOf f).length
        consumerCount := (g.consumersOf f).length
        impactRatio := ((g.consumersOf f).length : ℚ) / ((g.producersOf f).length : ℚ)
        totalConnections := (g.producersOf f).length + (g.consumersOf f).length })
  (sortedBy (fun a b => decide (sortKeyValue sortBy b ≤ sortKeyValue sortBy a)) rows).take limit

/-- The four-band bucket record of `getFieldDistributionStats`. -/
structure DistributionStats where
  lowImpact : Nat
  mediumImpact : Nat
  highImpact : Nat
  criticalImpact : Nat
deriving DecidableEq, Repr

/-- `getFieldDistributionStats`: buckets the eligible consumer counts by
`< 10`, `>= 10 AND < 100`, `>= 100 AND < 1000` and `>= 1000`. -/
def getFieldDistributionStats (g : Graph) : DistributionStats :=
  { lowImpact := g.eligibleConsumerCounts.countP (fun c => decide (c < 10))
    mediumImpact := g.eligibleConsumerCounts.countP (fun c =>
      decide (10 ≤ c) && decide (c < 100))
    highImpact := g.eligibleConsumerCounts.countP (fun c =>
      decide (100 ≤ c) && decide (c < 1000))
    criticalImpact := g.eligibleConsumerCounts.countP (fun c => decide (1000 ≤ c)) }

/-- The summary record of the critical-fields tool. -/
structure CriticalFieldsSummary where
  totalFields : Nat
  highImpactFields : List FieldImpactData
  averageConsumers : JSNum
  maxConsumers : JSNum
  distributionStats : DistributionStats
deriving DecidableEq, Repr

/-- `generateSummary`: the average is the consumer-count sum divided by
`fields.length` with no guard for the empty list, and the maximum is
`Math.max` over the (possibly empty) spread of consumer counts. -/
def generateSummary (fields : List FieldImpactData) (distributionStats : DistributionStats) :
    CriticalFieldsSummary :=
  { totalFields := fields.length
    highImpactFields := fields.take 10
    averageConsumers :=
      jsDivNum ((fields.map (fun f => (f.consumerCount : ℚ))).sum) (fields.length : ℚ)
    maxConsumers := mathMax (fields.map (fun f => (f.consumerCount : ℚ)))
    distributionStats := distributionStats }

/-- The risk label computed inline in `formatOutput` (summary format). -/
def formatRisk (consumerCount : Nat) : String :=
  if consumerCount > 1000 then "CRITICAL"
  else if consumerCount > 500 then "HIGH"
  else if consumerCount > 100 then "MEDIUM"
  else "LOW"

end CriticalFields

namespace ImpactSummary

/-- The system-statistics record of the impact-summary tool. -/
structure SystemStats where
  totalBusinessFunctions : Nat
  totalFields : Nat
  totalRelationships : Nat
  avgInputFields : ℚ
  avgOutputFields : ℚ
  maxInputFields : Nat
  maxOutputFields : Nat
deriving DecidableEq, Repr

/-- `getSystemStats`: the `try` block copies the rows produced by the
four count/aggregate queries (their combined outcome is the `Except`
argument); the `catch` block logs and returns the zeroed fallback
record. -/
def getSystemStats (r : Except String SystemStats) : SystemStats :=
  match r with
  | .ok stats =>
    { totalBusinessFunctions := stats.totalBusinessFunctions
      totalFields := stats.totalFields
      totalRelationships := stats.totalRelationships
      avgInputFields := stats.avgInputFields
      avgOutputFields := stats.avgOutputFields
      maxInputFields := stats.maxInputFields
      maxOutputFields := stats.maxOutputFields }
  | .error _ =>
    { totalBusinessFunctions := 0
      totalFields := 0
      totalRelationships := 0
      avgInputFields := 0
      avgOutputFields := 0
      maxInputFields := 0
      maxOutputFields := 0 }

/-- The connectivity record of the impact-summary tool. -/
structure ConnectivityStats where
  connectedComponents : Nat
  largestComponentSize : Nat
  isolatedBusinessFunctions : Nat
  highlyConnectedBFs : List (String × Nat)
deriving DecidableEq, Repr

/-- `getConnectivityStats`: on success the record is built from the
highly-connected rows and the node count (the query returns the literal
`1 as connectedComponents`); the `catch` block returns the zeroed
fallback. -/
def getConnectivityStats (r : Except String (List (String × Nat) × Nat)) :
    ConnectivityStats :=
  match r with
  | .ok p =>
    { connectedComponents := 1
      largestComponentSize := p.2
      isolatedBusinessFunctions := 0
      highlyConnectedBFs := p.1 }
  | .error _ =>
    { connectedComponents := 0
      largestComponentSize := 0
      isolatedBusinessFunctions := 0
      highlyConnectedBFs := [] }

/-- One entry of the reported consumer-count (or producer-count)
distribution. -/
structure RangeEntry where
  range : String
  count : Nat
  percentage : ℚ
deriving DecidableEq, Repr

/-- A row of the top-consumer / top-producer queries. -/
structure TopFieldRow where
  field : String
  consumers : Nat
  producers : Nat
deriving DecidableEq, Repr

/-- The field-distribution record of the impact-summary tool. -/
structure FieldDistribution where
  byConsumerCount : List RangeEntry
  byProducerCount : List RangeEntry
  topConsumerFields : List TopFieldRow
  topProducerFields : List TopFieldRow
deriving DecidableEq, Repr

/-- The row set shared by the three queries of `getFieldDistribution`:
one row per eligible field with its consumer and producer counts. -/
def eligibleRows (g : Graph) : List TopFieldRow :=
  g.eligibleFields.map (fun f =>
    { field := f
      consumers := (g.consumersOf f).length
      producers := (g.producersOf f).length })

/-- `sum(CASE WHEN consumerCount <= 10 THEN 1 ELSE 0 END)`. -/
def range1to10 (counts : List Nat) : Nat :=
  counts.countP (fun c => decide (c ≤ 10))

/-- `sum(CASE WHEN consumerCount > 10 AND consumerCount <= 50 …)`. -/
def range11to50 (counts : List Nat) : Nat :=
  counts.countP (fun c => decide (10 < c) && decide (c ≤ 50))

/-- `sum(CASE WHEN consumerCount > 50 AND consumerCount <= 100 …)`. -/
def range51to100 (counts : List Nat) : Nat :=
  counts.countP (fun c => decide (50 < c) && decide (c ≤ 100))

/-- `sum(CASE WHEN consumerCount > 100 AND consumerCount <= 500 …)`. -/
def range101to500 (counts : List Nat) : Nat :=
  counts.countP (fun c => decide (100 < c) && decide (c ≤ 500))

/-- `sum(CASE WHEN consumerCount > 500 AND consumerCount <= 1000 …)`. -/
def range501to1000 (counts : List Nat) : Nat :=
  counts.countP (fun c => decide (500 < c) && decide (c ≤ 1000))

/-- `sum(CASE WHEN consumerCount > 1000 THEN 1 ELSE 0 END)`. -/
def range1000plus (counts : List Nat) : Nat :=
  counts.countP (fun c => decide (1000 < c))

/-- A band percentage: `(count / total) * 100` where
`total = stats.total || 1` (the `|| 1` guards the division when no field
is eligible). -/
def bandPct (c total : Nat) : ℚ :=
  ((c : ℚ) / (if total = 0 then 1 else (total : ℚ))) * 100

/-- The `byConsumerCount` table built by `getFieldDistribution` from the
distribution-query row. -/
def consumerBands (counts : List Nat) : List RangeEntry :=
  [ { range := "1-10", count := range1to10 counts
      percentage := bandPct (range1to10 counts) counts.length }
  , { range := "11-50", count := range11to50 counts
      percentage := bandPct (range11to50 counts) counts.length }
  , { range := "51-100", count := range51to100 counts
      percentage := bandPct (range51to100 counts) counts.length }
  , { range := "101-500", count := range101to500 counts
      percentage := bandPct (range101to500 counts) counts.length }
  , { range := "501-1000", count := range501to1000 counts
      percentage := bandPct (range501to1000 counts) counts.length }
  , { range := "1000+", count := range1000plus counts
      percentage := bandPct (range1000plus counts) counts.length } ]

/-- `getFieldDistribution`: the `try` block runs the top-consumer,
top-producer and six-band distribution queries against the graph (the
query outcome is the `Except` argument), computing each percentage over
`stats.total || 1`; `byProducerCount` is the hard-coded zero table; the
`catch` block returns the empty fallback. -/
def getFieldDistribution (r : Except String Graph) (topCount : Nat) : FieldDistribution :=
  match r with
  | .ok g =>
    { byConsumerCount := consumerBands g.eligibleConsumerCounts
      byProducerCount :=
        [ { range := "1", count := 0, percentage := 0 }
        , { range := "2-3", count := 0, percentage := 0 }
        , { range := "4-5", count := 0, percentage := 0 }
        , { range := "6+", count := 0, percentage := 0 } ]
      topConsumerFields :=
        (sortedBy (fun a b => decide (b.consumers ≤ a.consumers)) (eligibleRows g)).take topCount
      topProducerFields :=
        (sortedBy (fun a b => decide (b.producers ≤ a.producers)) (eligibleRows g)).take topCount }
  | .error _ =>
    { byConsumerCount := []
      byProducerCount := []
      topConsumerFields := []
      topProducerFields := [] }

/-- One entry of the risk assessment's `criticalFields` list. -/
structure AssessedField where
  field : String
  risk : String
  impact : String
  recommendation : String
deriving DecidableEq, Repr

/-- The risk-assessment record. -/
structure RiskAssessment where
  criticalFields : List AssessedField
  systemFragility : String
  recommendedActions : List String
deriving DecidableEq, Repr

/-- The per-field classification inlined in `generateRiskAssessment`:
risk tier, impact statement and recommendation, computed from the
consumer count alone. -/
def classifyConsumerRisk (consumers : Nat) : String × String × String :=
  if consumers > 1000 then
    ("CRITICAL", "System-wide failure possible",
      "Implement extensive testing and rollback procedures")
  else if consumers > 500 then
    ("HIGH", "Major subsystem disruption",
      "Require comprehensive impact analysis before changes")
  else if consumers > 100 then
    ("MEDIUM", "Moderate impact across multiple functions",
      "Thorough testing of downstream effects required")
  else
    ("LOW", "Minimal system disruption", "Monitor for changes")

/-- The base `recommendedActions` list of `generateRiskAssessment`. -/
def recommendedActionsBase : List String :=
  [ "Implement comprehensive impact analysis tools"
  , "Establish change approval process for critical fields"
  , "Create automated testing for high-impact dependencies"
  , "Document business logic for critical BusinessFunctions"
  , "Consider microservice boundaries to reduce coupling" ]

/-- The per-field assessment record built in `generateRiskAssessment`'s
`criticalFields` map. -/
def assessField (f : TopFieldRow) : AssessedField :=
  { field := f.field
    risk := (classifyConsumerRisk f.consumers).1
    impact := (classifyConsumerRisk f.consumers).2.1
    recommendation := (classifyConsumerRisk f.consumers).2.2 }

/-- The `criticalFields` intermediate of `generateRiskAssessment`. -/
def criticalFieldsOf (fieldDistribution : FieldDistribution) : List AssessedField :=
  fieldDistribution.topConsumerFields.map assessField

/-- The `highRiskCount` intermediate of `generateRiskAssessment`. -/
def highRiskCount (fieldDistribution : FieldDistribution) : Nat :=
  ((criticalFieldsOf fieldDistribution).filter (fun f =>
    decide (f.risk = "CRITICAL") || decide (f.risk = "HIGH"))).length

/-- The `systemFragility` intermediate of `generateRiskAssessment`. -/
def systemFragilityOf (fieldDistribution : FieldDistribution) : String :=
  if highRiskCount fieldDistribution > 20 then "CRITICAL"
  else if highRiskCount fieldDistribution > 10 then "HIGH"
  else if highRiskCount fieldDistribution > 5 then "MEDIUM"
  else "LOW"

/-- `generateRiskAssessment` (its `systemStats` argument is also unused
in the source): the `recommendedActions` list is the base list, with the
emergency-rollback action `unshift`ed and the architecture-redesign
action `push`ed exactly when `systemFragility === 'CRITICAL'`. -/
def generateRiskAssessment (systemStats : SystemStats)
    (fieldDistribution : FieldDistribution) : RiskAssessment :=
  { criticalFields := criticalFieldsOf fieldDistribution
    systemFragility := systemFragilityOf fieldDistribution
    recommendedActions :=
      if systemFragilityOf fieldDistribution = "CRITICAL" then
        "URGENT: Establish emergency rollback procedures" ::
          (recommendedActionsBase ++ ["Consider system architecture redesign"])
      else recommendedActionsBase }

end ImpactSummary

namespace DependencyPaths

/-- A node bound by the path queries: a `BusinessFunction` or an
`ElementalField`, with its `name` property. -/
inductive Node where
  | bf (name : String)
  | fld (name : String)
deriving DecidableEq, Repr

/-- The `name` property of a node. -/
def Node.label : Node → String
  | .bf s => s
  | .fld s => s

/-- The label test `n:BusinessFunction` of the list comprehensions. -/
def Node.isBF : Node → Bool
  | .bf _ => true
  | .fld _ => false

/-- A relationship occurrence: `true` for `HAS_OUTPUT_FIELD`, `false`
for `HAS_INPUT_FIELD`, with its unit and field endpoints.  Both types
connect a `BusinessFunction` to an `ElementalField`, which is what the
`WHERE all(r in relationships(path) …)` filter keeps. -/
def relEdges (g : Graph) : List (Bool × String × String) :=
  g.producesE.map (fun e => (true, e.1, e.2)) ++
    g.consumesE.map (fun e => (false, e.1, e.2))

/-- Traverse a relationship in either direction from node `n` (the
queries match paths undirected), when `n` is one of its endpoints. -/
def across (e : Bool × String × String) (n : Node) : Option Node :=
  if n = Node.bf e.2.1 then some (Node.fld e.2.2)
  else if n = Node.fld e.2.2 then some (Node.bf e.2.1)
  else none

/-- All relationship-distinct walks (Cypher variable-length match
semantics) of at most `fuel` relationships starting at `n` and avoiding
the relationships in `used`; each walk is returned as its node list. -/
def trailsAux (g : Graph) : Nat → Node → List (Bool × String × String) → List (List Node)
  | 0, n, _ => [[n]]
  | fuel + 1, n, used =>
    [n] ::
      ((relEdges g).filterMap (fun e =>
        if e ∈ used then none else (across e n).map (fun m => (e, m)))).flatMap
        (fun s => (trailsAux g fuel s.2 (s.1 :: used)).map (fun p => n :: p))

/-- The candidate set of `(source)-[*1..maxDepth*2]-(target)` under the
relationship-type filter: walks from the source unit to the target unit
with between `1` and `2 * maxDepth` relationships. -/
def pathsBetween (g : Graph) (source target : String) (maxDepth : Nat) :
    List (List Node) :=
  (trailsAux g (2 * maxDepth) (Node.bf source) []).filter (fun p =>
    decide (2 ≤ p.length) && decide (p.getLast? = some (Node.bf target)))

/-- `length(path) / 2`, the unit-hop count reported as `pathLength`
(`length(path)` is the relationship count, here `p.length - 1`). -/
def pathLen (p : List Node) : Nat :=
  (p.length - 1) / 2

/-- `[n in nodes(path) WHERE n:BusinessFunction | n.name]`. -/
def businessFunctionNames (p : List Node) : List String :=
  (p.filter (fun n => n.isBF)).map Node.label

/-- `[n in nodes(path) WHERE n:ElementalField | n.name]`. -/
def fieldNames (p : List Node) : List String :=
  (p.filter (fun n => !n.isBF)).map Node.label

/-- A row of `findDependencyPaths`. -/
structure DependencyPath where
  sourceBusinessFunction : String
  targetBusinessFunction : String
  pathLength : Nat
  businessFunctions : List String
  fields : List String
  pathDescription : String
deriving DecidableEq, Repr

/-- `generatePathDescription`: alternate unit names with
`--[field]-->` arrows (or a bare arrow past the end of the field list)
and join with spaces. -/
def generatePathDescription (businessFunctions fields : List String) : String :=
  if businessFunctions.isEmpty then "" else
  let parts := (List.range (businessFunctions.length - 1)).flatMap (fun i =>
    [businessFunctions.getD i "",
      if i < fields.length then "--[" ++ fields.getD i "" ++ "]-->" else "-->"])
  String.intercalate " " (parts ++ [businessFunctions.getLastD ""])

/-- The row mapping of `findDependencyPaths`
(`businessFunctions[0]` / `businessFunctions[-1]` are the first and last
unit names on the path). -/
def mkRow (p : List Node) : DependencyPath :=
  { sourceBusinessFunction := (businessFunctionNames p).headD ""
    targetBusinessFunction := (businessFunctionNames p).getLastD ""
    pathLength := pathLen p
    businessFunctions := businessFunctionNames p
    fields := fieldNames p
    pathDescription := generatePathDescription (businessFunctionNames p) (fieldNames p) }

/-- The validated `--path-type` values. -/
inductive PathType where
  | shortest
  | all
  | longest
deriving DecidableEq, Repr

/-- `findDependencyPaths`.  `shortest` models Neo4j `shortestPath` (with
the relationship-type predicate) as a selection of minimum-length
candidates, capped by `LIMIT $limit`; `all` and `longest` order the
bounded candidate set by `pathLength` ascending / descending and apply
`LIMIT $limit`. -/
def findDependencyPaths (g : Graph) (source target : String) (maxDepth : Nat)
    (pathType : PathType) (limit : Nat) : List DependencyPath :=
  let candidates := pathsBetween g source target maxDepth
  match pathType with
  | .shortest =>
    match (candidates.map pathLen).min? with
    | none => []
    | some m => ((candidates.filter (fun p => decide (pathLen p = m))).take limit).map mkRow
  | .all =>
    ((sortedBy (fun p q => decide (pathLen p ≤ pathLen q)) candidates).take limit).map mkRow
  | .longest =>
    ((sortedBy (fun p q => decide (pathLen q ≤ pathLen p)) candidates).take limit).map mkRow

end DependencyPaths

/-! ### Concrete instances used by the claim checks -/

/-- The spec's three-unit scenario: `A` produces `F1`; `B` consumes `F1`
and produces `F2`; `C` consumes `F2` and produces `F3`, which nobody
consumes. -/
def scenarioGraph : Graph :=
  { units := ["A", "B", "C"]
    fields := ["F1", "F2", "F3"]
    producesE := [("A", "F1"), ("B", "F2"), ("C", "F3")]
    consumesE := [("B", "F1"), ("C", "F2")] }

/-- A two-unit graph: `A` produces `F1`, which `B` consumes. -/
def pairGraph : Graph :=
  { units := ["A", "B"]
    fields := ["F1"]
    producesE := [("A", "F1")]
    consumesE := [("B", "F1")] }

/-- A graph whose only field has a producer but no consumer, so that no
field is eligible for ranking or distribution. -/
def noConsumerGraph : Graph :=
  { units := ["A"]
    fields := ["F1"]
    producesE := [("A", "F1")]
    consumesE := [] }

/-- A graph with a single eligible field `F` having one producer and
exactly ten consumers. -/
def tenConsumerGraph : Graph :=
  { units := ["P", "C1", "C2", "C3", "C4", "C5", "C6", "C7", "C8", "C9", "C10"]
    fields := ["F"]
    producesE := [("P", "F")]
    consumesE := [("C1", "F"), ("C2", "F"), ("C3", "F"), ("C4", "F"), ("C5", "F"),
      ("C6", "F"), ("C7", "F"), ("C8", "F"), ("C9", "F"), ("C10", "F")] }

/-- The single dependency path of `pairGraph`, as a row. -/
def samplePath : DependencyPaths.DependencyPath :=
  { sourceBusinessFunction := "A"
    targetBusinessFunction := "B"
    pathLength := 1
    businessFunctions := ["A", "B"]
    fields := ["F1"]
    pathDescription := "A --[F1]--> B" }

/-- A zeroed system-statistics record, used as a sample input where a
`SystemStats` value is needed (the risk assessment ignores it). -/
def sampleStats : ImpactSummary.SystemStats :=
  { totalBusinessFunctions := 0
    totalFields := 0
    totalRelationships := 0
    avgInputFields := 0
    avgOutputFields := 0
    maxInputFields := 0
    maxOutputFields := 0 }

/-! ### Helper lemmas -/

theorem mem_insertLe {α : Type} (le : α → α → Bool) (a x : α) :
    ∀ l : List α, x ∈ insertLe le a l ↔ x = a ∨ x ∈ l := by
  intro l
  induction l with
  | nil => simp [insertLe]
  | cons b t ih =>
    by_cases h : le a b = true
    · simp [insertLe, h]
    · simp only [insertLe, if_neg h, List.mem_cons, ih]
      tauto

theorem mem_sortedBy {α : Type} (le : α → α → Bool) (x : α) :
    ∀ l : List α, x ∈ sortedBy le l ↔ x ∈ l := by
  intro l
  induction l with
  | nil => simp [sortedBy]
  | cons b t ih =>
    simp only [sortedBy, List.foldr_cons, List.mem_cons]
    rw [mem_insertLe]
    rw [show t.foldr (insertLe le) [] = sortedBy le t from rfl, ih]

theorem countP_four_bands (l : List Nat) :
    l.countP (fun c => decide (c < 10)) +
      l.countP (fun c => decide (10 ≤ c) && decide (c < 100)) +
      l.countP (fun c => decide (100 ≤ c) && decide (c < 1000)) +
      l.countP (fun c => decide (1000 ≤ c)) = l.length := by
  induction l with
  | nil => rfl
  | cons a t ih =>
    simp only [List.countP_cons, List.length_cons, Bool.and_eq_true, decide_eq_true_eq]
    split_ifs <;> omega

theorem countP_six_bands (l : List Nat) :
    ImpactSummary.range1to10 l + ImpactSummary.range11to50 l + ImpactSummary.range51to100 l +
      ImpactSummary.range101to500 l + ImpactSummary.range501to1000 l +
      ImpactSummary.range1000plus l = l.length := by
  simp only [ImpactSummary.range1to10, ImpactSummary.range11to50, ImpactSummary.range51to100,
    ImpactSummary.range101to500, ImpactSummary.range501to1000, ImpactSummary.range1000plus]
  induction l with
  | nil => rfl
  | cons a t ih =>
    simp only [List.countP_cons, List.length_cons, Bool.and_eq_true, decide_eq_true_eq]
    split_ifs <;> omega

theorem consumerBands_pct_sum (counts : List Nat) (h : 0 < counts.length) :
    ((ImpactSummary.consumerBands counts).map (fun b => b.percentage)).sum = 100 := by
  have hpart := countP_six_bands counts
  have hz : counts.length ≠ 0 := h.ne'
  have hT : ((counts.length : ℚ)) ≠ 0 := Nat.cast_ne_zero.mpr hz
  have hq : ((ImpactSummary.range1to10 counts : ℚ) + (ImpactSummary.range11to50 counts : ℚ) +
      (ImpactSummary.range51to100 counts : ℚ) + (ImpactSummary.range101to500 counts : ℚ) +
      (ImpactSummary.range501to1000 counts : ℚ) + (ImpactSummary.range1000plus counts : ℚ)) =
      (counts.length : ℚ) := by
    exact_mod_cast hpart
  simp only [ImpactSummary.consumerBands, ImpactSummary.bandPct, List.map_cons, List.map_nil,
    List.sum_cons, List.sum_nil, if_neg hz]
  field_simp
  linear_combination (100 : ℚ) * hq

theorem length_take_le_nat {α : Type} (n : Nat) (l : List α) : (l.take n).length ≤ n := by
  simp only [List.length_take]
  omega

/-! ### Claim theorems -/

/-- C1 (code bug): on the spec's three-unit scenario `analyzeImpact(A,
depth=1)` returns exactly `[B]` tagged depth 1, but `analyzeImpact(A,
depth=2)` returns only `[C]` tagged depth 2.  The multi-hop query built
for loop level `d` matches `d + 1` unit hops and reports
`impactDepth = d + 1`, so the depth-1 consumer `B` is absent from every
`depth ≥ 2` invocation (and results exceed the requested maximum depth),
contrary to the claimed `[B (depth 1), C (depth 2)]`. -/
theorem analyzeImpact_scenario_drops_direct_consumer :
    (ImpactAnalysis.analyzeImpact scenarioGraph "A" false 1).map
        (fun r => (r.affectedBusinessFunction, r.impactDepth)) = [("B", 1)] ∧
    (ImpactAnalysis.analyzeImpact scenarioGraph "A" false 2).map
        (fun r => (r.affectedBusinessFunction, r.impactDepth)) = [("C", 2)] ∧
    "B" ∉ (ImpactAnalysis.analyzeImpact scenarioGraph "A" false 2).map
        (fun r => r.affectedBusinessFunction) :=
  ⟨by decide, by decide, by decide⟩

/-- C2 (counterexample): when a graph query fails, each sub-aggregation
of the System Aggregator returns a zeroed / empty fallback record in
place of the failed sub-result — the failure does not propagate to the
caller, contrary to the claim. -/
theorem subAggregations_return_fallback_on_failure :
    ImpactSummary.getSystemStats (Except.error "connection refused") =
      { totalBusinessFunctions := 0, totalFields := 0, totalRelationships := 0,
        avgInputFields := 0, avgOutputFields := 0,
        maxInputFields := 0, maxOutputFields := 0 } ∧
    ImpactSummary.getConnectivityStats (Except.error "connection refused") =
      { connectedComponents := 0, largestComponentSize := 0,
        isolatedBusinessFunctions := 0, highlyConnectedBFs := [] } ∧
    ImpactSummary.getFieldDistribution (Except.error "connection refused") 10 =
      { byConsumerCount := [], byProducerCount := [],
        topConsumerFields := [], topProducerFields := [] } :=
  ⟨rfl, rfl, rfl⟩

/-- C2 (amended): every sub-aggregation of the System Aggregator catches
a query failure and returns a zeroed / empty fallback record, while a
successful query outcome is passed through; no failure is propagated to
the caller. -/
theorem subAggregations_catch_and_fall_back (e : String) (topCount : Nat)
    (stats : ImpactSummary.SystemStats) (rows : List (String × Nat)) (totalNodes : Nat) :
    ImpactSummary.getSystemStats (Except.error e) =
      { totalBusinessFunctions := 0, totalFields := 0, totalRelationships := 0,
        avgInputFields := 0, avgOutputFields := 0,
        maxInputFields := 0, maxOutputFields := 0 } ∧
    ImpactSummary.getSystemStats (Except.ok stats) = stats ∧
    ImpactSummary.getConnectivityStats (Except.error e) =
      { connectedComponents := 0, largestComponentSize := 0,
        isolatedBusinessFunctions := 0, highlyConnectedBFs := [] } ∧
    ImpactSummary.getConnectivityStats (Except.ok (rows, totalNodes)) =
      { connectedComponents := 1, largestComponentSize := totalNodes,
        isolatedBusinessFunctions := 0, highlyConnectedBFs := rows } ∧
    ImpactSummary.getFieldDistribution (Except.error e) topCount =
      { byConsumerCount := [], byProducerCount := [],
        topConsumerFields := [], topProducerFields := [] } :=
  ⟨rfl, rfl, rfl, rfl, rfl⟩

/-- C3 (counterexample): the consumer-count distribution reported with
percentages (`getFieldDistribution`) has six bands, not four, and its
first band is `1-10` inclusive: a field with exactly `10` consumers is
counted there rather than in a `[10, 100)` band. -/
theorem distribution_has_six_bands_not_four :
    (ImpactSummary.getFieldDistribution (Except.ok tenConsumerGraph) 10).byConsumerCount.map
        (fun b => (b.range, b.count)) =
      [("1-10", 1), ("11-50", 0), ("51-100", 0), ("101-500", 0),
        ("501-1000", 0), ("1000+", 0)] ∧
    (ImpactSummary.getFieldDistribution (Except.ok tenConsumerGraph) 10).byConsumerCount.length
      ≠ 4 :=
  ⟨by decide, by decide⟩

/-- C3 (amended): the four-band distribution of the critical-fields tool
(`< 10`, `[10,100)`, `[100,1000)`, `>= 1000`, no percentages) partitions
the eligible fields, and the six-band distribution of the impact-summary
tool (`≤ 10`, `11-50`, `51-100`, `101-500`, `501-1000`, `> 1000`) also
partitions them, with percentages that sum to exactly `100` whenever at
least one field is eligible. -/
theorem distributions_partition_eligible (g : Graph) (topCount : Nat) :
    (CriticalFields.getFieldDistributionStats g).lowImpact +
        (CriticalFields.getFieldDistributionStats g).mediumImpact +
        (CriticalFields.getFieldDistributionStats g).highImpact +
        (CriticalFields.getFieldDistributionStats g).criticalImpact =
      g.eligibleFields.length ∧
    ((ImpactSummary.getFieldDistribution (Except.ok g) topCount).byConsumerCount.map
        (fun b => b.count)).sum = g.eligibleFields.length ∧
    (ImpactSummary.getFieldDistribution (Except.ok g) topCount).byConsumerCount.map
        (fun b => b.range) =
      ["1-10", "11-50", "51-100", "101-500", "501-1000", "1000+"] ∧
    (0 < g.eligibleFields.length →
      ((ImpactSummary.getFieldDistribution (Except.ok g) topCount).byConsumerCount.map
          (fun b => b.percentage)).sum = 100) := by
  have hlen : g.eligibleConsumerCounts.length = g.eligibleFields.length :=
    List.length_map _ _
  refine ⟨?_, ?_, rfl, ?_⟩
  · have h4 := countP_four_bands g.eligibleConsumerCounts
    simp only [CriticalFields.getFieldDistributionStats]
    omega
  · have h6 := countP_six_bands g.eligibleConsumerCounts
    simp only [ImpactSummary.getFieldDistribution, ImpactSummary.consumerBands,
      List.map_cons, List.map_nil, List.sum_cons, List.sum_nil]
    omega
  · intro h
    have h' : 0 < g.eligibleConsumerCounts.length := by omega
    exact consumerBands_pct_sum g.eligibleConsumerCounts h'

/-- C3 (witness): on the two-unit graph there is one eligible field and
the six reported percentages sum to `100`. -/
theorem distributions_partition_witness :
    0 < pairGraph.eligibleFields.length ∧
    ((ImpactSummary.getFieldDistribution (Except.ok pairGraph) 10).byConsumerCount.map
        (fun b => b.percentage)).sum = 100 :=
  ⟨by decide, (distributions_partition_eligible pairGraph 10).2.2.2 (by decide)⟩

/-- C4: the risk tier (with its impact statement and recommendation) is a
pure function of the consumer count with thresholds `> 1000` CRITICAL,
`> 500` HIGH, `> 100` MEDIUM, else LOW; the sample points 1500, 600, 150
and 5 land on the four tiers; the critical-fields tool's inline risk
label agrees with it; and the risk assessment classifies each ranked
field using only its consumer count. -/
theorem riskTier_pure_thresholds :
    (∀ c : Nat,
      (1000 < c → ImpactSummary.classifyConsumerRisk c =
        ("CRITICAL", "System-wide failure possible",
          "Implement extensive testing and rollback procedures")) ∧
      (500 < c ∧ c ≤ 1000 → ImpactSummary.classifyConsumerRisk c =
        ("HIGH", "Major subsystem disruption",
          "Require comprehensive impact analysis before changes")) ∧
      (100 < c ∧ c ≤ 500 → ImpactSummary.classifyConsumerRisk c =
        ("MEDIUM", "Moderate impact across multiple functions",
          "Thorough testing of downstream effects required")) ∧
      (c ≤ 100 → ImpactSummary.classifyConsumerRisk c =
        ("LOW", "Minimal system disruption", "Monitor for changes"))) ∧
    (ImpactSummary.classifyConsumerRisk 1500).1 = "CRITICAL" ∧
    (ImpactSummary.classifyConsumerRisk 600).1 = "HIGH" ∧
    (ImpactSummary.classifyConsumerRisk 150).1 = "MEDIUM" ∧
    (ImpactSummary.classifyConsumerRisk 5).1 = "LOW" ∧
    (∀ c : Nat, CriticalFields.formatRisk c = (ImpactSummary.classifyConsumerRisk c).1) ∧
    (∀ (ss : ImpactSummary.SystemStats) (fd : ImpactSummary.FieldDistribution),
      (ImpactSummary.generateRiskAssessment ss fd).criticalFields =
        fd.topConsumerFields.map (fun f =>
          { field := f.field
            risk := (ImpactSummary.classifyConsumerRisk f.consumers).1
            impact := (ImpactSummary.classifyConsumerRisk f.consumers).2.1
            recommendation := (ImpactSummary.classifyConsumerRisk f.consumers).2.2 })) := by
  refine ⟨?_, by decide, by decide, by decide, by decide, ?_, fun ss fd => rfl⟩
  · intro c
    refine ⟨fun h => ?_, fun h => ?_, fun h => ?_, fun h => ?_⟩ <;>
      · unfold ImpactSummary.classifyConsumerRisk
        split_ifs <;> first | rfl | omega
  · intro c
    unfold CriticalFields.formatRisk ImpactSummary.classifyConsumerRisk
    split_ifs <;> rfl

/-- C4 (witness): the threshold theorem applied at consumer count 1500. -/
theorem riskTier_pure_thresholds_witness :
    1000 < 1500 ∧ ImpactSummary.classifyConsumerRisk 1500 =
      ("CRITICAL", "System-wide failure possible",
        "Implement extensive testing and rollback procedures") :=
  ⟨by decide, (riskTier_pure_thresholds.1 1500).1 (by decide)⟩

/-- C5: the system fragility is CRITICAL / HIGH / MEDIUM exactly when the
number of ranked fields classified HIGH or CRITICAL exceeds 20 / 10 / 5,
and LOW otherwise; the recommended actions are the fixed base list, with
the emergency-rollback action prepended and the architecture-redesign
action appended exactly when the fragility is CRITICAL. -/
theorem fragility_thresholds_and_actions (ss : ImpactSummary.SystemStats)
    (fd : ImpactSummary.FieldDistribution) :
    ((ImpactSummary.generateRiskAssessment ss fd).systemFragility = "CRITICAL" ↔
      20 < ImpactSummary.highRiskCount fd) ∧
    ((ImpactSummary.generateRiskAssessment ss fd).systemFragility = "HIGH" ↔
      10 < ImpactSummary.highRiskCount fd ∧ ImpactSummary.highRiskCount fd ≤ 20) ∧
    ((ImpactSummary.generateRiskAssessment ss fd).systemFragility = "MEDIUM" ↔
      5 < ImpactSummary.highRiskCount fd ∧ ImpactSummary.highRiskCount fd ≤ 10) ∧
    ((ImpactSummary.generateRiskAssessment ss fd).systemFragility = "LOW" ↔
      ImpactSummary.highRiskCount fd ≤ 5) ∧
    ((ImpactSummary.generateRiskAssessment ss fd).recommendedActions =
      if (ImpactSummary.generateRiskAssessment ss fd).systemFragility = "CRITICAL" then
        "URGENT: Establish emergency rollback procedures" ::
          (ImpactSummary.recommendedActionsBase ++ ["Consider system architecture redesign"])
      else ImpactSummary.recommendedActionsBase) := by
  show ((ImpactSummary.systemFragilityOf fd = "CRITICAL") ↔ _) ∧ _
  unfold ImpactSummary.generateRiskAssessment ImpactSummary.systemFragilityOf
  split_ifs <;> refine ⟨?_, ?_, ?_, ?_, rfl⟩ <;> simp <;> omega

/-- C6: the HIGH/CRITICAL count behind the fragility rating is computed
only over `topConsumerFields`, whose length is capped by the top-count
option; whenever that cap is at most 20 the fragility can never be
CRITICAL and the emergency-rollback / architecture-redesign actions are
never added, regardless of the graph. -/
theorem topCount_caps_fragility (g : Graph) (ss : ImpactSummary.SystemStats)
    (topCount : Nat) (h : topCount ≤ 20) :
    (ImpactSummary.getFieldDistribution (Except.ok g) topCount).topConsumerFields.length
      ≤ topCount ∧
    (ImpactSummary.generateRiskAssessment ss
      (ImpactSummary.getFieldDistribution (Except.ok g) topCount)).systemFragility
      ≠ "CRITICAL" ∧
    (ImpactSummary.generateRiskAssessment ss
      (ImpactSummary.getFieldDistribution (Except.ok g) topCount)).recommendedActions =
      ImpactSummary.recommendedActionsBase := by
  have hlen : (ImpactSummary.getFieldDistribution
      (Except.ok g) topCount).topConsumerFields.length ≤ topCount :=
    length_take_le_nat _ _
  have hn : ImpactSummary.highRiskCount
      (ImpactSummary.getFieldDistribution (Except.ok g) topCount) ≤ 20 := by
    calc ImpactSummary.highRiskCount (ImpactSummary.getFieldDistribution (Except.ok g) topCount)
        ≤ (ImpactSummary.criticalFieldsOf
            (ImpactSummary.getFieldDistribution (Except.ok g) topCount)).length :=
          List.length_filter_le _ _
      _ = (ImpactSummary.getFieldDistribution
            (Except.ok g) topCount).topConsumerFields.length := List.length_map _ _
      _ ≤ topCount := hlen
      _ ≤ 20 := h
  have hfrag : ImpactSummary.systemFragilityOf
      (ImpactSummary.getFieldDistribution (Except.ok g) topCount) ≠ "CRITICAL" := by
    unfold ImpactSummary.systemFragilityOf
    split_ifs <;> first | omega | decide
  refine ⟨hlen, hfrag, ?_⟩
  show (if ImpactSummary.systemFragilityOf
      (ImpactSummary.getFieldDistribution (Except.ok g) topCount) = "CRITICAL" then _ else _) = _
  rw [if_neg hfrag]

/-- C6 (witness): the cap theorem applied to the two-unit graph with the
default top count of 10. -/
theorem topCount_caps_fragility_witness :
    (ImpactSummary.generateRiskAssessment sampleStats
      (ImpactSummary.getFieldDistribution (Except.ok pairGraph) 10)).systemFragility
      ≠ "CRITICAL" ∧
    (ImpactSummary.generateRiskAssessment sampleStats
      (ImpactSummary.getFieldDistribution (Except.ok pairGraph) 10)).recommendedActions =
      ImpactSummary.recommendedActionsBase :=
  ⟨(topCount_caps_fragility pairGraph sampleStats 10 (by decide)).2.1,
    (topCount_caps_fragility pairGraph sampleStats 10 (by decide)).2.2⟩

/-- C9: for every graph (cyclic ones included) and every `maxDepth`, the
multi-hop analysis is a terminating function of exactly `maxDepth`
depth-level queries, each level capped at 100 rows, so the total result
count is at most `100 * maxDepth`. -/
theorem analyzeMultiHopImpact_bounded (g : Graph) (identifier : String)
    (isOutputField : Bool) (maxDepth : Nat) :
    (List.range maxDepth).length = maxDepth ∧
    (∀ d : Nat,
      ((ImpactAnalysis.multiHopLevel g identifier isOutputField d).take 100).length ≤ 100) ∧
    (ImpactAnalysis.analyzeMultiHopImpact g identifier isOutputField maxDepth).length ≤
      100 * maxDepth := by
  refine ⟨List.length_range maxDepth, fun d => length_take_le_nat _ _, ?_⟩
  unfold ImpactAnalysis.analyzeMultiHopImpact
  rw [List.length_flatMap]
  have hb := List.sum_le_card_nsmul
    ((List.range maxDepth).map (List.length ∘ fun i =>
      (ImpactAnalysis.multiHopLevel g identifier isOutputField (i + 1)).take 100)) 100 ?_
  · simpa [Nat.mul_comm] using hb
  · intro x hx
    rcases List.mem_map.mp hx with ⟨i, _, rfl⟩
    exact length_take_le_nat _ _

/-- C10: with zero ranked fields (here: no field meets the one-consumer
threshold) the critical-fields summary divides zero by zero, yielding
`NaN` for the average, and takes `Math.max` of an empty spread, yielding
`-Infinity` — while the distribution percentages of the impact-summary
tool are guarded by `|| 1` and stay `0` on the same graph. -/
theorem generateSummary_empty_nan_neginf (ds : CriticalFields.DistributionStats) :
    CriticalFields.analyzeCriticalFields noConsumerGraph 1 50
      CriticalFields.SortKey.consumers = [] ∧
    (CriticalFields.generateSummary
      (CriticalFields.analyzeCriticalFields noConsumerGraph 1 50
        CriticalFields.SortKey.consumers) ds).averageConsumers = CriticalFields.JSNum.nan ∧
    (CriticalFields.generateSummary
      (CriticalFields.analyzeCriticalFields noConsumerGraph 1 50
        CriticalFields.SortKey.consumers) ds).maxConsumers = CriticalFields.JSNum.negInf ∧
    (ImpactSummary.getFieldDistribution (Except.ok noConsumerGraph) 10).byConsumerCount.map
      (fun b => b.percentage) = [0, 0, 0, 0, 0, 0] := by
  have h0 : CriticalFields.analyzeCriticalFields noConsumerGraph 1 50
      CriticalFields.SortKey.consumers = [] := by decide
  refine ⟨h0, ?_, ?_, ?_⟩
  · rw [h0]
    simp [CriticalFields.generateSummary, CriticalFields.jsDivNum]
  · rw [h0]
    simp [CriticalFields.generateSummary, CriticalFields.mathMax]
  · have hc : noConsumerGraph.eligibleConsumerCounts = [] := by decide
    simp [ImpactSummary.getFieldDistribution, hc, ImpactSummary.consumerBands,
      ImpactSummary.bandPct, ImpactSummary.range1to10, ImpactSummary.range11to50,
      ImpactSummary.range51to100, ImpactSummary.range101to500,
      ImpactSummary.range501to1000, ImpactSummary.range1000plus]

namespace DependencyPaths

/-- Crossing a relationship flips the node kind: both relationship types
connect a unit to a field, so the relation graph is bipartite. -/
theorem across_isBF (e : Bool × String × String) (n m : Node)
    (h : across e n = some m) : m.isBF = !n.isBF := by
  unfold across at h
  split_ifs at h with h1 h2
  · injection h with h'
    subst h'
    subst h1
    rfl
  · injection h with h'
    subst h'
    subst h2
    rfl

/-- Every walk produced by `trailsAux` starts at its start node and
alternates between unit nodes and field nodes. -/
theorem trailsAux_head_chain (g : Graph) :
    ∀ (fuel : Nat) (n : Node) (used : List (Bool × String × String)) (p : List Node),
      p ∈ trailsAux g fuel n used →
      p.head? = some n ∧ List.Chain' (fun a b => b.isBF = !a.isBF) p := by
  intro fuel
  induction fuel with
  | zero =>
    intro n used p hp
    rw [show trailsAux g 0 n used = [[n]] from rfl, List.mem_singleton] at hp
    subst hp
    exact ⟨rfl, List.chain'_singleton n⟩
  | succ fuel ih =>
    intro n used p hp
    rw [show trailsAux g (fuel + 1) n used = [n] ::
      ((relEdges g).filterMap (fun e =>
        if e ∈ used then none else (across e n).map (fun m => (e, m)))).flatMap
        (fun s => (trailsAux g fuel s.2 (s.1 :: used)).map (fun p => n :: p)) from rfl,
      List.mem_cons] at hp
    rcases hp with rfl | hp
    · exact ⟨rfl, List.chain'_singleton n⟩
    · rcases List.mem_flatMap.mp hp with ⟨s, hs, hmem⟩
      rcases List.mem_map.mp hmem with ⟨q, hq, rfl⟩
      rcases List.mem_filterMap.mp hs with ⟨e, _, he2⟩
      have hacross : across e n = some s.2 := by
        by_cases hu : e ∈ used
        · rw [if_pos hu] at he2
          exact Option.noConfusion he2
        · rw [if_neg hu] at he2
          rcases Option.map_eq_some'.mp he2 with ⟨m, hm, hms⟩
          rw [← hms]
          exact hm
      obtain ⟨hqh, hqc⟩ := ih s.2 (s.1 :: used) q hq
      refine ⟨rfl, ?_⟩
      rw [List.chain'_cons']
      refine ⟨?_, hqc⟩
      intro y hy
      have hy2 : s.2 = y := by
        rw [hqh] at hy
        simpa using hy
      rw [← hy2]
      exact across_isBF e n s.2 hacross

/-- Unit-node count along an alternating walk. -/
theorem alt_countBF :
    ∀ (t : List Node) (h : Node), List.Chain' (fun a b => b.isBF = !a.isBF) (h :: t) →
      (h :: t).countP (fun n => n.isBF) =
        ((h :: t).length + (if h.isBF then 1 else 0)) / 2 := by
  intro t
  induction t with
  | nil =>
    intro h _
    cases hb : h.isBF <;> simp [List.countP_cons, hb]
  | cons b t2 ih =>
    intro h hch
    rw [List.chain'_cons] at hch
    obtain ⟨hR, hch2⟩ := hch
    have hib := ih b hch2
    rw [List.countP_cons]
    cases hb : h.isBF <;> rw [hb] at hR <;>
      simp [hR, hb, List.countP_cons] at hib ⊢ <;> omega

/-- Field-node count along an alternating walk. -/
theorem alt_countFld :
    ∀ (t : List Node) (h : Node), List.Chain' (fun a b => b.isBF = !a.isBF) (h :: t) →
      (h :: t).countP (fun n => !n.isBF) =
        ((h :: t).length + (if h.isBF then 0 else 1)) / 2 := by
  intro t
  induction t with
  | nil =>
    intro h _
    cases hb : h.isBF <;> simp [List.countP_cons, hb]
  | cons b t2 ih =>
    intro h hch
    rw [List.chain'_cons] at hch
    obtain ⟨hR, hch2⟩ := hch
    have hib := ih b hch2
    rw [List.countP_cons]
    cases hb : h.isBF <;> rw [hb] at hR <;>
      simp [hR, hb, List.countP_cons] at hib ⊢ <;> omega

/-- Length parity of an alternating walk, from the kinds of its two
endpoints. -/
theorem alt_parity :
    ∀ (t : List Node) (h l : Node), List.Chain' (fun a b => b.isBF = !a.isBF) (h :: t) →
      (h :: t).getLast? = some l →
      (h :: t).length % 2 = (if l.isBF = h.isBF then 1 else 0) := by
  intro t
  induction t with
  | nil =>
    intro h l _ hl
    have he : h = l := by simpa using hl
    subst he
    simp
  | cons b t2 ih =>
    intro h l hch hl
    rw [List.chain'_cons] at hch
    obtain ⟨hR, hch2⟩ := hch
    rw [List.getLast?_cons_cons] at hl
    have hib := ih b l hch2 hl
    cases hb : h.isBF <;> cases hlb : l.isBF <;> rw [hb] at hR <;>
      simp [hR, hb, hlb] at hib ⊢ <;> omega

/-- Counting for a walk between two unit nodes: the number of unit names
is `pathLen + 1` and the number of field names is `pathLen`. -/
theorem unit_field_counts (p : List Node) (s t : String)
    (hch : List.Chain' (fun a b => b.isBF = !a.isBF) p)
    (hh : p.head? = some (Node.bf s)) (hl : p.getLast? = some (Node.bf t)) :
    (businessFunctionNames p).length = pathLen p + 1 ∧
    (fieldNames p).length = pathLen p := by
  rcases p with _ | ⟨h, t2⟩
  · exact Option.noConfusion hh
  · have hh' : h = Node.bf s := by simpa using hh
    subst hh'
    have hcbf := alt_countBF t2 (Node.bf s) hch
    have hcfld := alt_countFld t2 (Node.bf s) hch
    have hpar := alt_parity t2 (Node.bf s) (Node.bf t) hch hl
    rw [show (if (Node.bf s).isBF then 1 else 0) = 1 from rfl, List.length_cons] at hcbf
    rw [show (if (Node.bf s).isBF then 0 else 1) = 0 from rfl, List.length_cons] at hcfld
    rw [show (if (Node.bf t).isBF = (Node.bf s).isBF then 1 else 0) = 1 from rfl,
      List.length_cons] at hpar
    unfold businessFunctionNames fieldNames pathLen
    rw [List.length_map, List.length_map, ← List.countP_eq_length_filter,
      ← List.countP_eq_length_filter, hcbf, hcfld]
    simp only [List.length_cons]
    omega

/-- Every candidate of `pathsBetween` starts at the source unit, ends at
the target unit, and alternates unit / field nodes. -/
theorem mem_pathsBetween (g : Graph) (source target : String) (maxDepth : Nat)
    (p : List Node) (hp : p ∈ pathsBetween g source target maxDepth) :
    p.head? = some (Node.bf source) ∧ p.getLast? = some (Node.bf target) ∧
      List.Chain' (fun a b => b.isBF = !a.isBF) p := by
  unfold pathsBetween at hp
  rw [List.mem_filter] at hp
  obtain ⟨hmem, hcond⟩ := hp
  obtain ⟨hh, hc⟩ := trailsAux_head_chain g (2 * maxDepth) (Node.bf source) [] p hmem
  simp only [Bool.and_eq_true, decide_eq_true_eq] at hcond
  exact ⟨hh, hcond.2, hc⟩

/-- Every row returned by `findDependencyPaths` is the row of some
candidate walk. -/
theorem mem_findDependencyPaths (g : Graph) (source target : String)
    (maxDepth limit : Nat) (pt : PathType) (P : DependencyPath)
    (hP : P ∈ findDependencyPaths g source target maxDepth pt limit) :
    ∃ p ∈ pathsBetween g source target maxDepth, P = mkRow p := by
  cases pt with
  | shortest =>
    simp only [findDependencyPaths] at hP
    rcases hmin : ((pathsBetween g source target maxDepth).map pathLen).min? with _ | m
    · simp only [hmin] at hP
      exact absurd hP (List.not_mem_nil P)
    · simp only [hmin] at hP
      rcases List.mem_map.mp hP with ⟨c, hc, rfl⟩
      have hcf := List.mem_filter.mp (List.mem_of_mem_take hc)
      exact ⟨c, hcf.1, rfl⟩
  | all =>
    simp only [findDependencyPaths] at hP
    rcases List.mem_map.mp hP with ⟨c, hc, rfl⟩
    exact ⟨c, (mem_sortedBy _ c _).mp (List.mem_of_mem_take hc), rfl⟩
  | longest =>
    simp only [findDependencyPaths] at hP
    rcases List.mem_map.mp hP with ⟨c, hc, rfl⟩
    exact ⟨c, (mem_sortedBy _ c _).mp (List.mem_of_mem_take hc), rfl⟩

end DependencyPaths

/-- C7: every path returned by the Path Finder, under any strategy, has
one more unit name than its `pathLength` and exactly `pathLength` field
names (fields strictly interleave units). -/
theorem pathFinder_units_fields_interleave (g : Graph) (source target : String)
    (maxDepth limit : Nat) (pt : DependencyPaths.PathType)
    (P : DependencyPaths.DependencyPath)
    (hP : P ∈ DependencyPaths.findDependencyPaths g source target maxDepth pt limit) :
    P.businessFunctions.length = P.pathLength + 1 ∧
    P.fields.length = P.pathLength := by
  obtain ⟨p, hp, rfl⟩ :=
    DependencyPaths.mem_findDependencyPaths g source target maxDepth limit pt P hP
  obtain ⟨hh, hl, hch⟩ := DependencyPaths.mem_pathsBetween g source target maxDepth p hp
  exact DependencyPaths.unit_field_counts p source target hch hh hl

/-- C7 (witness): on the two-unit graph the returned path has two unit
names and one field name at `pathLength = 1`. -/
theorem pathFinder_units_fields_interleave_witness :
    samplePath ∈ DependencyPaths.findDependencyPaths pairGraph "A" "B" 1
      DependencyPaths.PathType.all 100 ∧
    samplePath.businessFunctions.length = samplePath.pathLength + 1 ∧
    samplePath.fields.length = samplePath.pathLength :=
  ⟨by decide,
    (pathFinder_units_fields_interleave pairGraph "A" "B" 1 100
      DependencyPaths.PathType.all samplePath (by decide)).1,
    (pathFinder_units_fields_interleave pairGraph "A" "B" 1 100
      DependencyPaths.PathType.all samplePath (by decide)).2⟩

/-- C8: for the same source, target and depth bound, no path returned by
the `shortest` strategy is longer than any path returned by the `all`
strategy. -/
theorem shortest_not_longer_than_all (g : Graph) (source target : String)
    (maxDepth limit : Nat) (p q : DependencyPaths.DependencyPath)
    (hp : p ∈ DependencyPaths.findDependencyPaths g source target maxDepth
      DependencyPaths.PathType.shortest limit)
    (hq : q ∈ DependencyPaths.findDependencyPaths g source target maxDepth
      DependencyPaths.PathType.all limit) :
    p.pathLength ≤ q.pathLength := by
  simp only [DependencyPaths.findDependencyPaths] at hp hq
  rcases hmin : ((DependencyPaths.pathsBetween g source target maxDepth).map
      DependencyPaths.pathLen).min? with _ | m
  · simp only [hmin] at hp
    exact absurd hp (List.not_mem_nil p)
  · simp only [hmin] at hp
    rcases List.mem_map.mp hp with ⟨c, hc, rfl⟩
    have hcf := List.mem_filter.mp (List.mem_of_mem_take hc)
    have hceq : DependencyPaths.pathLen c = m := by simpa using hcf.2
    rcases List.mem_map.mp hq with ⟨c2, hc2, rfl⟩
    have hc2mem : c2 ∈ DependencyPaths.pathsBetween g source target maxDepth :=
      (mem_sortedBy _ c2 _).mp (List.mem_of_mem_take hc2)
    have hmle : m ≤ DependencyPaths.pathLen c2 :=
      (List.min?_eq_some_iff'.mp hmin).2 _
        (List.mem_map.mpr ⟨c2, hc2mem, rfl⟩)
    show DependencyPaths.pathLen c ≤ DependencyPaths.pathLen c2
    omega

/-- C8 (witness): on the two-unit graph the shortest-strategy result and
the all-strategy result both contain the same length-1 path, and the
theorem's inequality holds between them. -/
theorem shortest_not_longer_than_all_witness :
    samplePath ∈ DependencyPaths.findDependencyPaths pairGraph "A" "B" 1
      DependencyPaths.PathType.shortest 100 ∧
    samplePath ∈ DependencyPaths.findDependencyPaths pairGraph "A" "B" 1
      DependencyPaths.PathType.all 100 ∧
    samplePath.pathLength ≤ samplePath.pathLength :=
  ⟨by decide, by decide,
    shortest_not_longer_than_all pairGraph "A" "B" 1 100 samplePath samplePath
      (by decide) (by decide)⟩
